import Mathlib

/-!
Verification development for the `lordofthemind/mygopher` Go repository.

The development gives a shallow embedding of the parts of the repository
relevant to the token subsystem (`gophertoken`), the database
connect-with-retry helpers (`gopherpostgres`, `gophermongo`) and the SMTP
scheduling helper (`gophersmtp`), and proves properties about them.

Modelling conventions:
- Go `time.Time` and `time.Duration` are modelled as `Int` (Unix seconds).
  `time.Time.Unix()` on this granularity is the identity.
- Go effects (`uuid.NewRandom()`, successive `time.Now()` readings, network
  attempts, context cancellation) are passed to the embedded functions as
  explicit arguments / oracles.
- Cryptography is modelled symbolically (Dolev-Yao style): an HMAC signature
  and a Paseto authenticated encryption perfectly bind the key, method and
  message; this is the standard idealisation of an unforgeable MAC / AEAD.
- A Go `panic` is a distinguished outcome (`GoResult.panicked`), separate
  from returning an `error`.
-/

namespace Gophertoken

/-- A Go `error` value, identified by its message. -/
structure GoError where
  msg : String
deriving DecidableEq, Repr

/-- `ErrInvalidToken` from the `gophertoken` package. -/
def ErrInvalidToken : GoError :=
  ⟨"token validation failed: signature invalid or claims malformed"⟩

/-- `ErrExpiredToken` from the `gophertoken` package. -/
def ErrExpiredToken : GoError :=
  ⟨"token validation failed: token has expired"⟩

/-- `uuid.UUID`: a 128-bit value, modelled as a natural number. -/
abbrev UUID := Nat

/-- A Go string value as it appears in token claims: either the canonical
textual form of a UUID (what `uuid.UUID.String()` produces, and exactly the
strings on which `uuid.MustParse` succeeds), or any other string.
`Payload.Username` is an arbitrary Go string, hence also of this type. -/
inductive GoStr
  | uuidStr (u : UUID)
  | plain (s : String)
deriving DecidableEq, Repr

/-- Emptiness of a Go string: the canonical text of a UUID is never empty
(it has 36 characters). -/
def GoStr.isEmpty : GoStr → Bool
  | .uuidStr _ => false
  | .plain s => s = ""

/-- The `Payload` struct embedded in a token (Payload.go). -/
structure Payload where
  ID : UUID
  UserID : UUID
  Username : GoStr
  IssuedAt : Int
  ExpiredAt : Int
deriving DecidableEq, Repr

/-- `NewPayload(userID, username, duration)` (Payload.go).  The effects are
explicit: `newRandom` is the result of `uuid.NewRandom()`, and `now1`, `now2`
are the two successive `time.Now()` readings (`IssuedAt` uses the first,
`ExpiredAt` the second). -/
def NewPayload (newRandom : Except GoError UUID) (now1 now2 : Int)
    (userID : UUID) (username : GoStr) (duration : Int) :
    Except GoError Payload :=
  match newRandom with
  | .error e => .error e
  | .ok tokenID =>
      .ok { ID := tokenID, UserID := userID, Username := username,
            IssuedAt := now1, ExpiredAt := now2 + duration }

/-- `Payload.Valid()` (Payload.go): returns `ErrExpiredToken` when
`time.Now().After(payload.ExpiredAt)`, i.e. when `now` is strictly greater
than the expiry instant. -/
def Payload.Valid (payload : Payload) (now : Int) : Except GoError Unit :=
  if now > payload.ExpiredAt then .error ErrExpiredToken else .ok ()

/-- Outcome of running a Go function that may return normally, return an
error, or panic. -/
inductive GoResult (α : Type)
  | ok (a : α)
  | err (e : GoError)
  | panicked (msg : String)
deriving DecidableEq, Repr

/-- Sequencing of panicking computations: an error or panic propagates. -/
def GoResult.bind {α β : Type} : GoResult α → (α → GoResult β) → GoResult β
  | .ok a, f => f a
  | .err e, _ => .err e
  | .panicked m, _ => .panicked m

/-- Whether a `GoResult` is a panic. -/
def GoResult.isPanic {α : Type} : GoResult α → Bool
  | .panicked _ => true
  | _ => false

/-- A dynamic JSON value stored in `jwt.MapClaims` (the only dynamic types
this library reads back are strings and numbers; JSON numbers arrive as Go
`float64`, modelled here as `Int` at second granularity). -/
inductive JsonVal
  | str (s : GoStr)
  | num (n : Int)
deriving DecidableEq, Repr

/-- `jwt.MapClaims`, as an association list. -/
abbrev Claims := List (String × JsonVal)

/-- A JWT signing method. `jwt.SigningMethodHS256` is `hs256`; the other
constructors cover the remaining HMAC variants (HS384/HS512) and all
non-HMAC methods. -/
inductive SigMethod
  | hs256
  | hmacOther (name : String)
  | nonHmac (name : String)
deriving DecidableEq, Repr

/-- Whether the method is in the `*jwt.SigningMethodHMAC` family (the check
performed by the key-function given to `jwt.Parse`). -/
def SigMethod.isHMAC : SigMethod → Bool
  | .hs256 => true
  | .hmacOther _ => true
  | .nonHmac _ => false

/-- A symbolic HMAC signature: it binds the signing method, the symmetric
key, and the signed claims (unforgeability of HMAC is modelled by making the
signature literally contain all three). -/
structure Sig where
  method : SigMethod
  key : String
  claims : Claims
deriving DecidableEq, Repr

/-- The wire form of a JWT token string: a well-formed compact token
carrying a method, claims and a signature, or any other (malformed)
string. -/
inductive JwtWire
  | tok (method : SigMethod) (claims : Claims) (sig : Sig)
  | malformed (s : String)
deriving DecidableEq, Repr

/-- `jwt.Parse` with the key-function used in `JWTMaker.ValidateToken`
(JwtMaker.go): reject non-HMAC signing methods, then verify the signature
under `key`.  On success the decoded `MapClaims` are returned (and
`token.Valid` is true).  The tokens this library issues carry no registered
claims (`exp`/`nbf`/`iat`), so the parser's registered-claims validation is
vacuous and is not modelled. -/
def jwtParse (key : String) : JwtWire → Except GoError Claims
  | .malformed _ => .error ⟨"token is malformed"⟩
  | .tok method claims sig =>
      if method.isHMAC then
        if sig = ⟨method, key, claims⟩ then .ok claims
        else .error ⟨"signature is invalid"⟩
      else .error ⟨"unexpected signing method"⟩

/-- The Go expression `claims[k].(string)`: a missing key or a non-string
dynamic value makes the unchecked type assertion panic. -/
def getStr (cs : Claims) (k : String) : GoResult GoStr :=
  match cs.lookup k with
  | some (.str s) => .ok s
  | some (.num _) => .panicked "interface conversion: interface is not string"
  | none => .panicked "interface conversion: interface is nil, not string"

/-- The Go expression `int64(claims[k].(float64))`: a missing key or a
non-number dynamic value makes the unchecked type assertion panic. -/
def getNum (cs : Claims) (k : String) : GoResult Int :=
  match cs.lookup k with
  | some (.num n) => .ok n
  | some (.str _) => .panicked "interface conversion: interface is not float64"
  | none => .panicked "interface conversion: interface is nil, not float64"

/-- `uuid.MustParse`: panics unless the string is the canonical text of a
UUID. -/
def mustParseUUID : GoStr → GoResult UUID
  | .uuidStr u => .ok u
  | .plain _ => .panicked "uuid: Parse: invalid UUID format"

/-- The byte size of a character in UTF-8 (Go strings are UTF-8 byte
sequences). -/
def charBytes (c : Char) : Nat :=
  if c.val ≤ 0x7F then 1 else if c.val ≤ 0x7FF then 2
  else if c.val ≤ 0xFFFF then 3 else 4

/-- Go `len` on a string: the number of bytes of its UTF-8 encoding. -/
def goLen (s : String) : Nat := (s.data.map charBytes).sum

/-- The `JWTMaker` struct (JwtMaker.go). -/
structure JWTMaker where
  symmetricKey : String
deriving DecidableEq, Repr

/-- `NewJWTMaker` (JwtMaker.go): rejects an empty secret key. -/
def NewJWTMaker (secretKey : String) : Except GoError JWTMaker :=
  if goLen secretKey = 0 then .error ⟨"symmetric key must be set"⟩
  else .ok ⟨secretKey⟩

/-- `JWTMaker.GenerateToken` (JwtMaker.go): build a payload with
`NewPayload`, put its fields into `jwt.MapClaims` (UUIDs via `.String()`,
times via `.Unix()`), and sign with HS256 under the symmetric key.
(`SignedString` with an HMAC method cannot fail, so its error path is not
modelled.) -/
def JWTMaker.GenerateToken (j : JWTMaker) (newRandom : Except GoError UUID)
    (now1 now2 : Int) (userID : UUID) (username : GoStr) (duration : Int) :
    Except GoError JwtWire :=
  match NewPayload newRandom now1 now2 userID username duration with
  | .error e => .error e
  | .ok payload =>
      let claims : Claims :=
        [("id", .str (.uuidStr payload.ID)),
         ("user_id", .str (.uuidStr payload.UserID)),
         ("username", .str payload.Username),
         ("issued_at", .num payload.IssuedAt),
         ("expired_at", .num payload.ExpiredAt)]
      .ok (.tok .hs256 claims ⟨.hs256, j.symmetricKey, claims⟩)

/-- The claim-extraction block of `JWTMaker.ValidateToken` (JwtMaker.go):
the struct literal building `&Payload{...}`, whose field initialisers run in
order and use `uuid.MustParse` and unchecked type assertions. -/
def extractPayload (claims : Claims) : GoResult Payload :=
  (getStr claims "id").bind fun idStr =>
  (mustParseUUID idStr).bind fun id =>
  (getStr claims "user_id").bind fun userIDStr =>
  (mustParseUUID userIDStr).bind fun userID =>
  (getStr claims "username").bind fun username =>
  (getNum claims "issued_at").bind fun issuedAt =>
  (getNum claims "expired_at").bind fun expiredAt =>
  .ok { ID := id, UserID := userID, Username := username,
        IssuedAt := issuedAt, ExpiredAt := expiredAt }

/-- `JWTMaker.ValidateToken` (JwtMaker.go): parse-and-verify (any failure
becomes `ErrInvalidToken`), extract the payload from the claims, then check
expiry with `Payload.Valid` at the current time `now`. -/
def JWTMaker.ValidateToken (j : JWTMaker) (now : Int) (w : JwtWire) :
    GoResult Payload :=
  match jwtParse j.symmetricKey w with
  | .error _ => .err ErrInvalidToken
  | .ok claims =>
      (extractPayload claims).bind fun payload =>
        match payload.Valid now with
        | .error e => .err e
        | .ok _ => .ok payload

/-- `chacha20poly1305.KeySize`. -/
def chacha20poly1305KeySize : Nat := 32

/-- The `PasetoMaker` struct (PasetoMaker.go). -/
structure PasetoMaker where
  symmetricKey : String
deriving DecidableEq, Repr

/-- `NewPasetoMaker` (PasetoMaker.go): the secret key must be exactly
`chacha20poly1305.KeySize` (32) bytes. -/
def NewPasetoMaker (secretKey : String) : Except GoError PasetoMaker :=
  if goLen secretKey ≠ chacha20poly1305KeySize then
    .error ⟨"invalid key size: must be exactly 32 bytes"⟩
  else .ok ⟨secretKey⟩

/-- The wire form of a Paseto v2.local token string: an authenticated
encryption of a payload under a key, or any other (malformed) string. -/
inductive PasetoWire
  | enc (key : String) (payload : Payload)
  | malformed (s : String)
deriving DecidableEq, Repr

/-- `paseto.V2.Decrypt`: authenticated decryption succeeds exactly when the
token was encrypted under the same symmetric key, and then yields the
original payload. -/
def pasetoDecrypt (key : String) : PasetoWire → Except GoError Payload
  | .enc k p => if k = key then .ok p
                else .error ⟨"invalid token authentication"⟩
  | .malformed _ => .error ⟨"incorrect token format"⟩

/-- `PasetoMaker.GenerateToken` (PasetoMaker.go): build a payload with
`NewPayload` and encrypt it under the symmetric key. -/
def PasetoMaker.GenerateToken (m : PasetoMaker)
    (newRandom : Except GoError UUID) (now1 now2 : Int)
    (userID : UUID) (username : GoStr) (duration : Int) :
    Except GoError PasetoWire :=
  match NewPayload newRandom now1 now2 userID username duration with
  | .error e => .error e
  | .ok payload => .ok (.enc m.symmetricKey payload)

/-- `PasetoMaker.ValidateToken` (PasetoMaker.go): decrypt (any failure
becomes `ErrInvalidToken`), then check expiry with `Payload.Valid` at the
current time `now`. -/
def PasetoMaker.ValidateToken (m : PasetoMaker) (now : Int)
    (w : PasetoWire) : GoResult Payload :=
  match pasetoDecrypt m.symmetricKey w with
  | .error _ => .err ErrInvalidToken
  | .ok payload =>
      match payload.Valid now with
      | .error e => .err e
      | .ok _ => .ok payload

/-- A constructed `TokenManager` (the interface value returned by the
factory): either a JWT maker or a Paseto maker. -/
inductive TokenMaker
  | jwt (m : JWTMaker)
  | paseto (m : PasetoMaker)
deriving DecidableEq, Repr

/-- `TokenTypeJWT` (TokenManager.go). -/
def TokenTypeJWT : String := "jwt"

/-- `TokenTypePaseto` (TokenManager.go). -/
def TokenTypePaseto : String := "paseto"

/-- `NewTokenManager` (TokenManager.go): dispatch on the token type;
unknown types yield `ErrInvalidToken`. -/
def NewTokenManager (tokenType secretKey : String) :
    Except GoError TokenMaker :=
  if tokenType = TokenTypeJWT then (NewJWTMaker secretKey).map TokenMaker.jwt
  else if tokenType = TokenTypePaseto then
    (NewPasetoMaker secretKey).map TokenMaker.paseto
  else .error ErrInvalidToken

/-! Helper lemmas about the embedded definitions. -/

theorem charBytes_pos (c : Char) : 0 < charBytes c := by
  unfold charBytes
  split
  · omega
  · split
    · omega
    · split <;> omega

theorem goLen_eq_zero (s : String) : goLen s = 0 ↔ s = "" := by
  cases s with
  | mk data =>
    cases data with
    | nil => simp [goLen]
    | cons c cs =>
      constructor
      · intro h
        have hc := charBytes_pos c
        simp [goLen] at h
        omega
      · intro h
        have : (String.mk (c :: cs)).data = ("" : String).data := by rw [h]
        simp at this

theorem NewJWTMaker_ok {k : String} {m : JWTMaker}
    (h : NewJWTMaker k = .ok m) : m = ⟨k⟩ := by
  unfold NewJWTMaker at h
  split at h
  · exact absurd h (by simp)
  · injection h with h
    exact h.symm

theorem NewPasetoMaker_ok {k : String} {m : PasetoMaker}
    (h : NewPasetoMaker k = .ok m) : m = ⟨k⟩ := by
  unfold NewPasetoMaker at h
  split at h
  · exact absurd h (by simp)
  · injection h with h
    exact h.symm

/-- Claim C3: `NewTokenManager` with token type "jwt" delegates to the
HMAC/JWT backend constructor, with "paseto" to the Paseto backend
constructor, and with any other token type returns no manager and an error
(`ErrInvalidToken`); any backend it returns carries exactly the given
secret key. -/
theorem C3_factory (tokenType secretKey : String) :
    (tokenType = "jwt" →
      NewTokenManager tokenType secretKey =
        (NewJWTMaker secretKey).map TokenMaker.jwt)
    ∧ (tokenType = "paseto" →
      NewTokenManager tokenType secretKey =
        (NewPasetoMaker secretKey).map TokenMaker.paseto)
    ∧ (tokenType ≠ "jwt" → tokenType ≠ "paseto" →
      NewTokenManager tokenType secretKey = .error ErrInvalidToken)
    ∧ (∀ m, NewTokenManager tokenType secretKey = .ok (TokenMaker.jwt m) →
        m.symmetricKey = secretKey)
    ∧ (∀ m, NewTokenManager tokenType secretKey = .ok (TokenMaker.paseto m) →
        m.symmetricKey = secretKey) := by
  unfold NewTokenManager TokenTypeJWT TokenTypePaseto
  refine ⟨?_, ?_, ?_, ?_, ?_⟩
  · intro h
    simp [h]
  · intro h
    simp [h]
  · intro h1 h2
    simp [h1, h2]
  · intro m hm
    split at hm
    · cases hj : NewJWTMaker secretKey with
      | error e => rw [hj] at hm; simp [Except.map] at hm
      | ok m0 =>
          rw [hj] at hm
          simp [Except.map] at hm
          rw [← hm]
          rw [NewJWTMaker_ok hj]
    · split at hm
      · cases hp : NewPasetoMaker secretKey with
        | error e => rw [hp] at hm; simp [Except.map] at hm
        | ok m0 => rw [hp] at hm; simp [Except.map] at hm
      · exact absurd hm (by simp)
  · intro m hm
    split at hm
    · cases hj : NewJWTMaker secretKey with
      | error e => rw [hj] at hm; simp [Except.map] at hm
      | ok m0 => rw [hj] at hm; simp [Except.map] at hm
    · split at hm
      · cases hp : NewPasetoMaker secretKey with
        | error e => rw [hp] at hm; simp [Except.map] at hm
        | ok m0 =>
            rw [hp] at hm
            simp [Except.map] at hm
            rw [← hm]
            rw [NewPasetoMaker_ok hp]
      · exact absurd hm (by simp)

/-- Witness for C3 at concrete inputs: dispatch to each backend, rejection
of an unknown type, and key exactness. -/
theorem C3_factory_witness :
    NewTokenManager "jwt" "a" = (NewJWTMaker "a").map TokenMaker.jwt
    ∧ NewTokenManager "paseto" "b" =
        (NewPasetoMaker "b").map TokenMaker.paseto
    ∧ NewTokenManager "hmac" "c" = .error ErrInvalidToken
    ∧ JWTMaker.symmetricKey ⟨"a"⟩ = "a" :=
  ⟨(C3_factory "jwt" "a").1 rfl,
   (C3_factory "paseto" "b").2.1 rfl,
   (C3_factory "hmac" "c").2.2.1 (by decide) (by decide),
   (C3_factory "jwt" "a").2.2.2.1 ⟨"a"⟩ rfl⟩

/-- Claim C5 counterexample: `NewPayload` performs no validation of the
duration argument.  With duration `0` (and the two `time.Now()` readings
equal) it succeeds and returns a payload whose expires-at equals its
issued-at, so expires-at is not strictly greater than issued-at. -/
theorem C5_counterexample :
    NewPayload (Except.ok 0) 0 0 0 (GoStr.plain "u") 0 =
      Except.ok { ID := 0, UserID := 0, Username := GoStr.plain "u",
                  IssuedAt := 0, ExpiredAt := 0 }
    ∧ ({ ID := 0, UserID := 0, Username := GoStr.plain "u",
         IssuedAt := 0, ExpiredAt := 0 : Payload }).ExpiredAt ≤
      ({ ID := 0, UserID := 0, Username := GoStr.plain "u",
         IssuedAt := 0, ExpiredAt := 0 : Payload }).IssuedAt :=
  ⟨rfl, le_refl 0⟩

/-- Claim C5 (amended): for every payload returned successfully by
`NewPayload` with a positive duration (and a clock that does not go
backwards between the two `time.Now()` readings), the expires-at timestamp
is strictly greater than the issued-at timestamp.  `NewPayload` itself does
not validate the duration, so the invariant can fail for zero or negative
durations. -/
theorem C5_amended (newRandom : Except GoError UUID) (now1 now2 : Int)
    (userID : UUID) (username : GoStr) (duration : Int) (p : Payload)
    (hdur : 0 < duration) (hclk : now1 ≤ now2)
    (hp : NewPayload newRandom now1 now2 userID username duration =
      Except.ok p) :
    p.IssuedAt < p.ExpiredAt := by
  cases newRandom with
  | error e => simp [NewPayload] at hp
  | ok u =>
      simp [NewPayload] at hp
      rw [← hp]
      simp
      omega

/-- Witness for C5 (amended) at concrete inputs. -/
theorem C5_amended_witness :
    ({ ID := 5, UserID := 2, Username := GoStr.plain "u",
       IssuedAt := 10, ExpiredAt := 11 : Payload }).IssuedAt <
    ({ ID := 5, UserID := 2, Username := GoStr.plain "u",
       IssuedAt := 10, ExpiredAt := 11 : Payload }).ExpiredAt :=
  C5_amended (Except.ok 5) 10 10 2 (GoStr.plain "u") 1 _ (by decide)
    (by decide) rfl

/-- Claim C6: `NewJWTMaker` returns an error exactly when the secret key is
the empty string; `NewPasetoMaker` returns an error exactly when the
secret key's byte length differs from `chacha20poly1305.KeySize` (32); and
there is a key (here "a") accepted by the JWT backend and rejected by the
Paseto backend. -/
theorem C6_key_validation :
    (∀ k : String, (∃ e, NewJWTMaker k = .error e) ↔ k = "")
    ∧ (∀ k : String, (∃ e, NewPasetoMaker k = .error e) ↔
        goLen k ≠ chacha20poly1305KeySize)
    ∧ (∃ k m e, NewJWTMaker k = .ok m ∧ NewPasetoMaker k = .error e) := by
  refine ⟨?_, ?_, ?_⟩
  · intro k
    unfold NewJWTMaker
    constructor
    · intro ⟨e, he⟩
      split at he
      · exact (goLen_eq_zero k).mp (by assumption)
      · exact absurd he (by simp)
    · intro h
      refine ⟨⟨"symmetric key must be set"⟩, ?_⟩
      rw [if_pos ((goLen_eq_zero k).mpr h)]
  · intro k
    unfold NewPasetoMaker
    constructor
    · intro ⟨e, he⟩
      split at he
      · assumption
      · exact absurd he (by simp)
    · intro h
      refine ⟨⟨"invalid key size: must be exactly 32 bytes"⟩, ?_⟩
      rw [if_pos h]
  · exact ⟨"a", ⟨"a"⟩, ⟨"invalid key size: must be exactly 32 bytes"⟩,
      rfl, rfl⟩

/-- Witness for C6 at concrete inputs: the empty key is rejected by the
JWT backend, and a 32-byte key is accepted by the Paseto backend. -/
theorem C6_key_validation_witness :
    (∃ e, NewJWTMaker "" = .error e)
    ∧ ¬ ∃ e, NewPasetoMaker "0123456789abcdef0123456789abcdef" =
        .error e :=
  ⟨(C6_key_validation.1 "").mpr rfl,
   fun h =>
     absurd ((C6_key_validation.2.1 "0123456789abcdef0123456789abcdef").mp h)
       (by decide)⟩

/-- Claim C9: the payload's token ID is exactly the value drawn from the
random UUID generator, independent of the username, user ID and duration
arguments; two `NewPayload` calls receiving distinct generator outputs
produce payloads with distinct token IDs. -/
theorem C9_fresh_token_id :
    (∀ (u : UUID) (now1 now2 : Int) (userID : UUID) (username : GoStr)
       (duration : Int),
      NewPayload (Except.ok u) now1 now2 userID username duration =
        Except.ok { ID := u, UserID := userID, Username := username,
                    IssuedAt := now1, ExpiredAt := now2 + duration })
    ∧ (∀ (u u' : UUID) (a b : Int) (c : UUID) (d : GoStr) (e : Int)
         (f g : Int) (h : UUID) (i : GoStr) (j : Int) (p q : Payload),
        u ≠ u' →
        NewPayload (Except.ok u) a b c d e = Except.ok p →
        NewPayload (Except.ok u') f g h i j = Except.ok q →
        p.ID ≠ q.ID) := by
  constructor
  · intro u now1 now2 userID username duration
    rfl
  · intro u u' a b c d e f g h i j p q hne hp hq
    simp [NewPayload] at hp hq
    rw [← hp, ← hq]
    simpa using hne

/-- Witness for C9 at concrete inputs. -/
theorem C9_fresh_token_id_witness :
    NewPayload (Except.ok 1) 0 0 7 (GoStr.plain "a") 3 =
      Except.ok { ID := 1, UserID := 7, Username := GoStr.plain "a",
                  IssuedAt := 0, ExpiredAt := 3 }
    ∧ ({ ID := 1, UserID := 7, Username := GoStr.plain "a",
         IssuedAt := 0, ExpiredAt := 3 : Payload }).ID ≠
      ({ ID := 2, UserID := 7, Username := GoStr.plain "a",
         IssuedAt := 0, ExpiredAt := 3 : Payload }).ID :=
  ⟨C9_fresh_token_id.1 1 0 0 7 (GoStr.plain "a") 3,
   C9_fresh_token_id.2 1 2 0 0 7 (GoStr.plain "a") 3 0 0 7
     (GoStr.plain "a") 3 _ _ (by decide) rfl rfl⟩

/-- The claims that `JWTMaker.GenerateToken` signs for a given payload
extract back to exactly that payload (the leaf values are arbitrary). -/
theorem extractPayload_generated (id uid : UUID) (un : GoStr)
    (iat eat : Int) :
    extractPayload
      [("id", .str (.uuidStr id)), ("user_id", .str (.uuidStr uid)),
       ("username", .str un), ("issued_at", .num iat),
       ("expired_at", .num eat)] =
    .ok { ID := id, UserID := uid, Username := un,
          IssuedAt := iat, ExpiredAt := eat } := rfl

/-- `jwt.Parse` accepts a token signed under the same key with an HMAC
method and returns its claims. -/
theorem jwtParse_same_key (k : String) (cl : Claims) :
    jwtParse k (.tok .hs256 cl ⟨.hs256, k, cl⟩) = .ok cl := by
  simp [jwtParse, SigMethod.isHMAC]

/-- `paseto.V2.Decrypt` under the encryption key recovers the payload. -/
theorem pasetoDecrypt_same_key (k : String) (p : Payload) :
    pasetoDecrypt k (.enc k p) = .ok p := by
  simp [pasetoDecrypt]

/-- `jwt.Parse` rejects a token signed under a different key: the HMAC
signature does not verify. -/
theorem jwtParse_wrong_key (k k2 : String) (cl : Claims) (h : ¬ k = k2) :
    jwtParse k2 (.tok .hs256 cl ⟨.hs256, k, cl⟩) =
      .error ⟨"signature is invalid"⟩ := by
  have hne : ¬ (Sig.mk .hs256 k cl = Sig.mk .hs256 k2 cl) := by
    simp [Sig.mk.injEq]
    exact h
  simp [jwtParse, SigMethod.isHMAC, hne]

/-- `paseto.V2.Decrypt` under a different key fails authentication. -/
theorem pasetoDecrypt_wrong_key (k k2 : String) (p : Payload)
    (h : ¬ k = k2) :
    pasetoDecrypt k2 (.enc k p) =
      .error ⟨"invalid token authentication"⟩ := by
  simp [pasetoDecrypt, h]

/-- Claim C1: for every non-empty username, user ID and positive duration,
and every maker successfully constructed from a valid secret key,
`ValidateToken` applied to the token returned by `GenerateToken` succeeds
at any validation time before the expiry instant and returns a payload
whose username and user ID equal the inputs of `GenerateToken`; this holds
identically for the JWT and the Paseto backend. -/
theorem C1_round_trip (kJ kP : String) (jm : JWTMaker) (pm : PasetoMaker)
    (hj : NewJWTMaker kJ = .ok jm) (hp : NewPasetoMaker kP = .ok pm)
    (tokenID userID : UUID) (username : GoStr)
    (hname : username.isEmpty = false)
    (now1 now2 duration nowV : Int) (hdur : 0 < duration)
    (hbefore : nowV < now2 + duration)
    (wj : JwtWire) (wp : PasetoWire)
    (hgj : jm.GenerateToken (Except.ok tokenID) now1 now2 userID username
      duration = Except.ok wj)
    (hgp : pm.GenerateToken (Except.ok tokenID) now1 now2 userID username
      duration = Except.ok wp) :
    (∃ p, jm.ValidateToken nowV wj = .ok p
      ∧ p.Username = username ∧ p.UserID = userID)
    ∧ (∃ p, pm.ValidateToken nowV wp = .ok p
      ∧ p.Username = username ∧ p.UserID = userID) := by
  have hv : ¬ (nowV > now2 + duration) := by omega
  constructor
  · simp only [JWTMaker.GenerateToken, NewPayload] at hgj
    injection hgj with hgj
    rw [← hgj]
    refine ⟨{ ID := tokenID, UserID := userID, Username := username,
              IssuedAt := now1, ExpiredAt := now2 + duration },
            ?_, rfl, rfl⟩
    simp only [JWTMaker.ValidateToken, jwtParse_same_key,
      extractPayload_generated, GoResult.bind, Payload.Valid]
    simp [hv]
  · simp only [PasetoMaker.GenerateToken, NewPayload] at hgp
    injection hgp with hgp
    rw [← hgp]
    refine ⟨{ ID := tokenID, UserID := userID, Username := username,
              IssuedAt := now1, ExpiredAt := now2 + duration },
            ?_, rfl, rfl⟩
    simp only [PasetoMaker.ValidateToken, pasetoDecrypt_same_key,
      Payload.Valid]
    simp [hv]

/-- Witness for C1 at concrete inputs (JWT key "a", a 32-byte Paseto key,
duration 5, validation at time 12 against expiry 15). -/
theorem C1_round_trip_witness :
    (∃ p, JWTMaker.ValidateToken ⟨"a"⟩ 12
        (.tok .hs256
          [("id", .str (.uuidStr 7)), ("user_id", .str (.uuidStr 3)),
           ("username", .str (GoStr.plain "alice")),
           ("issued_at", .num 10), ("expired_at", .num 15)]
          ⟨.hs256, "a",
           [("id", .str (.uuidStr 7)), ("user_id", .str (.uuidStr 3)),
            ("username", .str (GoStr.plain "alice")),
            ("issued_at", .num 10), ("expired_at", .num 15)]⟩) = .ok p
      ∧ p.Username = GoStr.plain "alice" ∧ p.UserID = 3)
    ∧ (∃ p, PasetoMaker.ValidateToken
        ⟨"0123456789abcdef0123456789abcdef"⟩ 12
        (.enc "0123456789abcdef0123456789abcdef"
          { ID := 7, UserID := 3, Username := GoStr.plain "alice",
            IssuedAt := 10, ExpiredAt := 15 }) = .ok p
      ∧ p.Username = GoStr.plain "alice" ∧ p.UserID = 3) :=
  C1_round_trip "a" "0123456789abcdef0123456789abcdef" ⟨"a"⟩
    ⟨"0123456789abcdef0123456789abcdef"⟩ rfl rfl 7 3 (GoStr.plain "alice")
    rfl 10 10 5 12 (by decide) (by decide) _ _ rfl rfl

/-- Claim C2: for every authentic token (one that verifies under the
maker's symmetric key — for JWT, any HMAC-signed claims whose extraction
yields a payload; for Paseto, any encrypted payload) whose expires-at lies
strictly in the past at validation time, `ValidateToken` returns
`ErrExpiredToken` (not `ErrInvalidToken`); when expires-at has not passed,
the expiry check raises no error and the payload is returned. -/
theorem C2_expiry :
    (∀ (j : JWTMaker) (claims : Claims) (p : Payload) (now : Int),
      extractPayload claims = .ok p →
      ((p.ExpiredAt < now →
        j.ValidateToken now
          (.tok .hs256 claims ⟨.hs256, j.symmetricKey, claims⟩) =
          .err ErrExpiredToken)
      ∧ (now ≤ p.ExpiredAt →
        j.ValidateToken now
          (.tok .hs256 claims ⟨.hs256, j.symmetricKey, claims⟩) = .ok p)))
    ∧ (∀ (m : PasetoMaker) (p : Payload) (now : Int),
      (p.ExpiredAt < now →
        m.ValidateToken now (.enc m.symmetricKey p) = .err ErrExpiredToken)
      ∧ (now ≤ p.ExpiredAt →
        m.ValidateToken now (.enc m.symmetricKey p) = .ok p)) := by
  constructor
  · intro j claims p now hx
    constructor
    · intro hlt
      simp only [JWTMaker.ValidateToken, jwtParse_same_key, hx,
        GoResult.bind, Payload.Valid]
      rw [if_pos (by omega)]
    · intro hle
      simp only [JWTMaker.ValidateToken, jwtParse_same_key, hx,
        GoResult.bind, Payload.Valid]
      rw [if_neg (by omega)]
  · intro m p now
    constructor
    · intro hlt
      simp only [PasetoMaker.ValidateToken, pasetoDecrypt_same_key,
        Payload.Valid]
      rw [if_pos (by omega)]
    · intro hle
      simp only [PasetoMaker.ValidateToken, pasetoDecrypt_same_key,
        Payload.Valid]
      rw [if_neg (by omega)]

/-- Witness for C2 at concrete inputs: the same authentic token yields
`ErrExpiredToken` at time 20 (expiry 15 strictly past) and the payload at
time 15. -/
theorem C2_expiry_witness :
    JWTMaker.ValidateToken ⟨"a"⟩ 20
      (.tok .hs256
        [("id", .str (.uuidStr 7)), ("user_id", .str (.uuidStr 3)),
         ("username", .str (GoStr.plain "alice")), ("issued_at", .num 10),
         ("expired_at", .num 15)]
        ⟨.hs256, "a",
         [("id", .str (.uuidStr 7)), ("user_id", .str (.uuidStr 3)),
          ("username", .str (GoStr.plain "alice")), ("issued_at", .num 10),
          ("expired_at", .num 15)]⟩) = .err ErrExpiredToken
    ∧ PasetoMaker.ValidateToken ⟨"0123456789abcdef0123456789abcdef"⟩ 15
        (.enc "0123456789abcdef0123456789abcdef"
          { ID := 7, UserID := 3, Username := GoStr.plain "alice",
            IssuedAt := 10, ExpiredAt := 15 }) =
      .ok { ID := 7, UserID := 3, Username := GoStr.plain "alice",
            IssuedAt := 10, ExpiredAt := 15 } :=
  ⟨((C2_expiry.1 ⟨"a"⟩ _
      { ID := 7, UserID := 3, Username := GoStr.plain "alice",
        IssuedAt := 10, ExpiredAt := 15 } 20
      (extractPayload_generated 7 3 (GoStr.plain "alice") 10 15)).1
      (by decide)),
   ((C2_expiry.2 ⟨"0123456789abcdef0123456789abcdef"⟩
      { ID := 7, UserID := 3, Username := GoStr.plain "alice",
        IssuedAt := 10, ExpiredAt := 15 } 15).2 (by decide))⟩

/-- Claim C4: a token generated under symmetric key `k` is rejected with
`ErrInvalidToken` by a maker of the same backend holding a different key
`k2` (necessity of the shared secret), and is never rejected with
`ErrInvalidToken` by the maker holding `k` itself (sufficiency: with the
right key the only possible failure is expiry). -/
theorem C4_wrong_key :
    (∀ (j j2 : JWTMaker) (u userID : UUID) (username : GoStr)
       (now1 now2 duration nowV : Int) (w : JwtWire),
      j.symmetricKey ≠ j2.symmetricKey →
      j.GenerateToken (Except.ok u) now1 now2 userID username duration =
        Except.ok w →
      j2.ValidateToken nowV w = .err ErrInvalidToken)
    ∧ (∀ (m m2 : PasetoMaker) (u userID : UUID) (username : GoStr)
       (now1 now2 duration nowV : Int) (w : PasetoWire),
      m.symmetricKey ≠ m2.symmetricKey →
      m.GenerateToken (Except.ok u) now1 now2 userID username duration =
        Except.ok w →
      m2.ValidateToken nowV w = .err ErrInvalidToken)
    ∧ (∀ (j : JWTMaker) (u userID : UUID) (username : GoStr)
       (now1 now2 duration nowV : Int) (w : JwtWire),
      j.GenerateToken (Except.ok u) now1 now2 userID username duration =
        Except.ok w →
      j.ValidateToken nowV w ≠ .err ErrInvalidToken)
    ∧ (∀ (m : PasetoMaker) (u userID : UUID) (username : GoStr)
       (now1 now2 duration nowV : Int) (w : PasetoWire),
      m.GenerateToken (Except.ok u) now1 now2 userID username duration =
        Except.ok w →
      m.ValidateToken nowV w ≠ .err ErrInvalidToken) := by
  refine ⟨?_, ?_, ?_, ?_⟩
  · intro j j2 u userID username now1 now2 duration nowV w hk hw
    simp only [JWTMaker.GenerateToken, NewPayload] at hw
    injection hw with hw
    rw [← hw]
    simp only [JWTMaker.ValidateToken]
    rw [jwtParse_wrong_key j.symmetricKey j2.symmetricKey _ hk]
  · intro m m2 u userID username now1 now2 duration nowV w hk hw
    simp only [PasetoMaker.GenerateToken, NewPayload] at hw
    injection hw with hw
    rw [← hw]
    simp only [PasetoMaker.ValidateToken]
    rw [pasetoDecrypt_wrong_key m.symmetricKey m2.symmetricKey _ hk]
  · intro j u userID username now1 now2 duration nowV w hw
    simp only [JWTMaker.GenerateToken, NewPayload] at hw
    injection hw with hw
    rw [← hw]
    simp only [JWTMaker.ValidateToken, jwtParse_same_key,
      extractPayload_generated, GoResult.bind, Payload.Valid]
    by_cases hc : nowV > now2 + duration
    · rw [if_pos hc]
      exact (by decide :
        (GoResult.err ErrExpiredToken : GoResult Payload) ≠
          .err ErrInvalidToken)
    · rw [if_neg hc]
      simp
  · intro m u userID username now1 now2 duration nowV w hw
    simp only [PasetoMaker.GenerateToken, NewPayload] at hw
    injection hw with hw
    rw [← hw]
    simp only [PasetoMaker.ValidateToken, pasetoDecrypt_same_key,
      Payload.Valid]
    by_cases hc : nowV > now2 + duration
    · rw [if_pos hc]
      exact (by decide :
        (GoResult.err ErrExpiredToken : GoResult Payload) ≠
          .err ErrInvalidToken)
    · rw [if_neg hc]
      simp

/-- Witness for C4 at concrete inputs: a token issued under key "a" is
rejected as `ErrInvalidToken` by a JWT maker holding key "b", and accepted
(not `ErrInvalidToken`) by the maker holding "a". -/
theorem C4_wrong_key_witness :
    JWTMaker.ValidateToken ⟨"b"⟩ 12
      (.tok .hs256
        [("id", .str (.uuidStr 7)), ("user_id", .str (.uuidStr 3)),
         ("username", .str (GoStr.plain "alice")), ("issued_at", .num 10),
         ("expired_at", .num 15)]
        ⟨.hs256, "a",
         [("id", .str (.uuidStr 7)), ("user_id", .str (.uuidStr 3)),
          ("username", .str (GoStr.plain "alice")), ("issued_at", .num 10),
          ("expired_at", .num 15)]⟩) = .err ErrInvalidToken
    ∧ JWTMaker.ValidateToken ⟨"a"⟩ 12
      (.tok .hs256
        [("id", .str (.uuidStr 7)), ("user_id", .str (.uuidStr 3)),
         ("username", .str (GoStr.plain "alice")), ("issued_at", .num 10),
         ("expired_at", .num 15)]
        ⟨.hs256, "a",
         [("id", .str (.uuidStr 7)), ("user_id", .str (.uuidStr 3)),
          ("username", .str (GoStr.plain "alice")), ("issued_at", .num 10),
          ("expired_at", .num 15)]⟩) ≠ .err ErrInvalidToken :=
  ⟨C4_wrong_key.1 ⟨"a"⟩ ⟨"b"⟩ 7 3 (GoStr.plain "alice") 10 10 5 12 _
     (by decide) rfl,
   C4_wrong_key.2.2.1 ⟨"a"⟩ 7 3 (GoStr.plain "alice") 10 10 5 12 _ rfl⟩

/-- Claim C7 counterexample: `JWTMaker.ValidateToken` is not total.  On a
token that carries a valid HMAC signature under the maker's key but whose
`id` claim has dynamic type number instead of string, the unchecked type
assertion `claims["id"].(string)` panics instead of returning an error. -/
theorem C7_counterexample :
    JWTMaker.ValidateToken ⟨"key"⟩ 0
      (.tok .hs256 [("id", .num 0)] ⟨.hs256, "key", [("id", .num 0)]⟩) =
    .panicked "interface conversion: interface is not string" := by decide

/-- Claim C7 (amended): `JWTMaker.ValidateToken` returns a payload or an
error — and never panics — on every input that fails parsing or signature
verification (such inputs yield `ErrInvalidToken`), and on every token
generated by this library; but on a token that is authentic under the
maker's key and whose claims are missing, of unexpected dynamic type, or
contain a non-UUID id/user_id string, the claim extraction
(`uuid.MustParse` and unchecked type assertions) panics. -/
theorem C7_totality_amended :
    (∀ (j : JWTMaker) (now : Int) (w : JwtWire) (e : GoError),
      jwtParse j.symmetricKey w = .error e →
      j.ValidateToken now w = .err ErrInvalidToken)
    ∧ (∀ (j : JWTMaker) (u userID : UUID) (username : GoStr)
       (now1 now2 duration now : Int) (w : JwtWire),
      j.GenerateToken (Except.ok u) now1 now2 userID username duration =
        Except.ok w →
      (j.ValidateToken now w).isPanic = false) := by
  constructor
  · intro j now w e he
    simp only [JWTMaker.ValidateToken, he]
  · intro j u userID username now1 now2 duration now w hw
    simp only [JWTMaker.GenerateToken, NewPayload] at hw
    injection hw with hw
    rw [← hw]
    simp only [JWTMaker.ValidateToken, jwtParse_same_key,
      extractPayload_generated, GoResult.bind, Payload.Valid]
    by_cases hc : now > now2 + duration
    · rw [if_pos hc]
      exact (by decide :
        (GoResult.err ErrExpiredToken : GoResult Payload).isPanic = false)
    · rw [if_neg hc]
      simp [GoResult.isPanic]

/-- Witness for C7 (amended) at concrete inputs: a malformed string yields
`ErrInvalidToken`, and validating a token generated by the library does not
panic. -/
theorem C7_totality_amended_witness :
    JWTMaker.ValidateToken ⟨"a"⟩ 0 (.malformed "not-a-jwt") =
      .err ErrInvalidToken
    ∧ (JWTMaker.ValidateToken ⟨"a"⟩ 12
        (.tok .hs256
          [("id", .str (.uuidStr 7)), ("user_id", .str (.uuidStr 3)),
           ("username", .str (GoStr.plain "alice")),
           ("issued_at", .num 10), ("expired_at", .num 15)]
          ⟨.hs256, "a",
           [("id", .str (.uuidStr 7)), ("user_id", .str (.uuidStr 3)),
            ("username", .str (GoStr.plain "alice")),
            ("issued_at", .num 10),
            ("expired_at", .num 15)]⟩)).isPanic = false :=
  ⟨C7_totality_amended.1 ⟨"a"⟩ 0 (.malformed "not-a-jwt")
     ⟨"token is malformed"⟩ rfl,
   C7_totality_amended.2 ⟨"a"⟩ 7 3 (GoStr.plain "alice") 10 10 5 12 _ rfl⟩

end Gophertoken

namespace GopherDB

/-- Outcome of a connect helper: a handle returned to the caller, an error
returned to the caller, or process termination via `log.Fatalf`. -/
inductive Outcome (H : Type)
  | ok (h : H)
  | err (msg : String)
  | fatal (msg : String)
deriving DecidableEq, Repr

/-- Text of a Go error value that may be nil (`%w` on a nil error). -/
def lastErrText : Option String → String
  | none => "nil"
  | some e => e

/-- The final wrapped error of the PostgreSQL helpers. -/
def finalErrPG (maxRetries : Nat) (lastErr : Option String) : String :=
  "failed to connect to PostgreSQL after " ++ toString maxRetries ++
    " retries: " ++ lastErrText lastErr

/-- The final wrapped error of the MongoDB helper. -/
def finalErrMongo (maxRetries : Nat) (lastErr : Option String) : String :=
  "failed to connect to MongoDB after " ++ toString maxRetries ++
    " retries: " ++ lastErrText lastErr

/-- The context-cancellation error of the PostgreSQL helpers. -/
def ctxErrPG : String :=
  "context timed out while trying to connect to database"

/-- The context-cancellation error of the MongoDB helper. -/
def ctxErrMongo : String :=
  "context timed out while trying to connect to MongoDB"

/-- The empty-DSN error of the PostgreSQL helpers. -/
def dsnErrPG : String := "missing required database URL (DSN)"

/-- The empty-DSN error of the MongoDB helper. -/
def dsnErrMongo : String := "missing required MongoDB connection string (DSN)"

/-- The retry loop of `ConnectPostgresDB` (ConnectPostgresDB.go,
`database/sql` variant).  `ctxDone i` tells whether `ctx.Done()` has fired
when iteration `i` starts; `openA i` is the outcome of the `sql.Open` call
of attempt `i` and `pingA i db` the outcome of the subsequent
`db.PingContext` (`none` = success).  Arguments: attempt index `i`,
remaining iterations, the error of the last failed attempt, and (as
instrumentation, not in the source) the number of connection attempts made
so far; it returns the outcome paired with the total number of attempts. -/
def pgSQLLoop (H : Type) (ctxDone : Nat → Bool)
    (openA : Nat → Except String H) (pingA : Nat → H → Option String)
    (maxRetries : Nat) : Nat → Nat → Option String → Nat → Outcome H × Nat
  | _, 0, lastErr, count => (.err (finalErrPG maxRetries lastErr), count)
  | i, r + 1, _, count =>
      if ctxDone i then (.err ctxErrPG, count)
      else
        match openA i with
        | .error e =>
            pgSQLLoop H ctxDone openA pingA maxRetries (i + 1) r (some e)
              (count + 1)
        | .ok db =>
            match pingA i db with
            | none => (.ok db, count + 1)
            | some e =>
                pgSQLLoop H ctxDone openA pingA maxRetries (i + 1) r (some e)
                  (count + 1)

/-- `ConnectPostgresDB` (`database/sql` variant): reject an empty DSN
before any attempt, then run the retry loop; after the loop the last error
is wrapped and returned to the caller. -/
def ConnectPostgresDB (H : Type) (ctxDone : Nat → Bool)
    (openA : Nat → Except String H) (pingA : Nat → H → Option String)
    (dsn : String) (maxRetries : Nat) : Outcome H × Nat :=
  if dsn = "" then (.err dsnErrPG, 0)
  else pgSQLLoop H ctxDone openA pingA maxRetries 0 maxRetries none 0

/-- The retry loop of `ConnectToPostgresGORM` (ConnectPostgresGORM.go):
one `gorm.Open` call per attempt; when the loop exhausts `maxRetries` the
function calls `log.Fatalf`, which terminates the process (the `return`
after it is dead code). -/
def gormLoop (H : Type) (ctxDone : Nat → Bool)
    (openA : Nat → Except String H) (maxRetries : Nat) :
    Nat → Nat → Option String → Nat → Outcome H × Nat
  | _, 0, lastErr, count => (.fatal (finalErrPG maxRetries lastErr), count)
  | i, r + 1, _, count =>
      if ctxDone i then (.err ctxErrPG, count)
      else
        match openA i with
        | .ok db => (.ok db, count + 1)
        | .error e =>
            gormLoop H ctxDone openA maxRetries (i + 1) r (some e) (count + 1)

/-- `ConnectToPostgresGORM`: reject an empty DSN before any attempt, then
run the retry loop; exhausting the retries terminates the process. -/
def ConnectToPostgresGORM (H : Type) (ctxDone : Nat → Bool)
    (openA : Nat → Except String H) (dsn : String) (maxRetries : Nat) :
    Outcome H × Nat :=
  if dsn = "" then (.err dsnErrPG, 0)
  else gormLoop H ctxDone openA maxRetries 0 maxRetries none 0

/-- The retry loop of `ConnectToMongoDB` (ConnectMongoDB.go): a
`mongo.Connect` call followed on success by a `client.Ping`; when the loop
exhausts `maxRetries` the function calls `log.Fatalf`, which terminates the
process (the `return` after it is dead code). -/
def mongoLoop (H : Type) (ctxDone : Nat → Bool)
    (connA : Nat → Except String H) (pingA : Nat → H → Option String)
    (maxRetries : Nat) : Nat → Nat → Option String → Nat → Outcome H × Nat
  | _, 0, lastErr, count => (.fatal (finalErrMongo maxRetries lastErr), count)
  | i, r + 1, _, count =>
      if ctxDone i then (.err ctxErrMongo, count)
      else
        match connA i with
        | .error e =>
            mongoLoop H ctxDone connA pingA maxRetries (i + 1) r (some e)
              (count + 1)
        | .ok client =>
            match pingA i client with
            | none => (.ok client, count + 1)
            | some e =>
                mongoLoop H ctxDone connA pingA maxRetries (i + 1) r (some e)
                  (count + 1)

/-- `ConnectToMongoDB`: reject an empty DSN before any attempt, then run
the retry loop; exhausting the retries terminates the process. -/
def ConnectToMongoDB (H : Type) (ctxDone : Nat → Bool)
    (connA : Nat → Except String H) (pingA : Nat → H → Option String)
    (dsn : String) (maxRetries : Nat) : Outcome H × Nat :=
  if dsn = "" then (.err dsnErrMongo, 0)
  else mongoLoop H ctxDone connA pingA maxRetries 0 maxRetries none 0

/-- One unfolding of the `database/sql` retry loop. -/
theorem pgSQLLoop_succ (H : Type) (dc : Nat → Bool)
    (oA : Nat → Except String H) (pA : Nat → H → Option String)
    (M i r : Nat) (lastE : Option String) (c : Nat) :
    pgSQLLoop H dc oA pA M i (r + 1) lastE c =
      if dc i then (.err ctxErrPG, c)
      else
        match oA i with
        | .error e => pgSQLLoop H dc oA pA M (i + 1) r (some e) (c + 1)
        | .ok db =>
            match pA i db with
            | none => (.ok db, c + 1)
            | some e =>
                pgSQLLoop H dc oA pA M (i + 1) r (some e) (c + 1) := rfl

/-- One unfolding of the GORM retry loop. -/
theorem gormLoop_succ (H : Type) (dc : Nat → Bool)
    (oA : Nat → Except String H) (M i r : Nat) (lastE : Option String)
    (c : Nat) :
    gormLoop H dc oA M i (r + 1) lastE c =
      if dc i then (.err ctxErrPG, c)
      else
        match oA i with
        | .ok db => (.ok db, c + 1)
        | .error e => gormLoop H dc oA M (i + 1) r (some e) (c + 1) := rfl

/-- One unfolding of the MongoDB retry loop. -/
theorem mongoLoop_succ (H : Type) (dc : Nat → Bool)
    (cA : Nat → Except String H) (pA : Nat → H → Option String)
    (M i r : Nat) (lastE : Option String) (c : Nat) :
    mongoLoop H dc cA pA M i (r + 1) lastE c =
      if dc i then (.err ctxErrMongo, c)
      else
        match cA i with
        | .error e => mongoLoop H dc cA pA M (i + 1) r (some e) (c + 1)
        | .ok client =>
            match pA i client with
            | none => (.ok client, c + 1)
            | some e =>
                mongoLoop H dc cA pA M (i + 1) r (some e) (c + 1) := rfl

/-- The `database/sql` retry loop makes at most `r` further attempts. -/
theorem pgSQLLoop_count_le (H : Type) (dc : Nat → Bool)
    (oA : Nat → Except String H) (pA : Nat → H → Option String) (M : Nat) :
    ∀ (r i : Nat) (lastE : Option String) (c : Nat),
      (pgSQLLoop H dc oA pA M i r lastE c).2 ≤ c + r := by
  intro r
  induction r with
  | zero =>
      intro i lastE c
      simp [pgSQLLoop]
  | succ r ih =>
      intro i lastE c
      rw [pgSQLLoop_succ]
      split
      · show c ≤ c + (r + 1)
        omega
      · split
        · exact le_trans (ih _ _ _) (by omega)
        · split
          · show c + 1 ≤ c + (r + 1)
            omega
          · exact le_trans (ih _ _ _) (by omega)

/-- The GORM retry loop makes at most `r` further attempts. -/
theorem gormLoop_count_le (H : Type) (dc : Nat → Bool)
    (oA : Nat → Except String H) (M : Nat) :
    ∀ (r i : Nat) (lastE : Option String) (c : Nat),
      (gormLoop H dc oA M i r lastE c).2 ≤ c + r := by
  intro r
  induction r with
  | zero =>
      intro i lastE c
      simp [gormLoop]
  | succ r ih =>
      intro i lastE c
      rw [gormLoop_succ]
      split
      · show c ≤ c + (r + 1)
        omega
      · split
        · show c + 1 ≤ c + (r + 1)
          omega
        · exact le_trans (ih _ _ _) (by omega)

/-- The MongoDB retry loop makes at most `r` further attempts. -/
theorem mongoLoop_count_le (H : Type) (dc : Nat → Bool)
    (cA : Nat → Except String H) (pA : Nat → H → Option String) (M : Nat) :
    ∀ (r i : Nat) (lastE : Option String) (c : Nat),
      (mongoLoop H dc cA pA M i r lastE c).2 ≤ c + r := by
  intro r
  induction r with
  | zero =>
      intro i lastE c
      simp [mongoLoop]
  | succ r ih =>
      intro i lastE c
      rw [mongoLoop_succ]
      split
      · show c ≤ c + (r + 1)
        omega
      · split
        · exact le_trans (ih _ _ _) (by omega)
        · split
          · show c + 1 ≤ c + (r + 1)
            omega
          · exact le_trans (ih _ _ _) (by omega)

/-- When the context never fires and every `sql.Open` attempt fails, the
`database/sql` loop exhausts its budget, makes exactly one attempt per
iteration, and returns the wrapped error of the last attempt. -/
theorem pgSQLLoop_all_fail (H : Type) (dc : Nat → Bool)
    (oA : Nat → Except String H) (pA : Nat → H → Option String) (M : Nat)
    (E : Nat → String) (hdc : ∀ i, dc i = false)
    (hoA : ∀ i, oA i = .error (E i)) :
    ∀ (r i : Nat) (lastE : Option String) (c : Nat),
      pgSQLLoop H dc oA pA M i (r + 1) lastE c =
        (.err (finalErrPG M (some (E (i + r)))), c + (r + 1)) := by
  intro r
  induction r with
  | zero =>
      intro i lastE c
      rw [pgSQLLoop_succ, hdc i, hoA i]
      simp [pgSQLLoop]
  | succ r ih =>
      intro i lastE c
      have hstep : pgSQLLoop H dc oA pA M i (r + 1 + 1) lastE c =
          pgSQLLoop H dc oA pA M (i + 1) (r + 1) (some (E i)) (c + 1) := by
        rw [pgSQLLoop_succ, hdc i, hoA i]
        simp
      rw [hstep, ih (i + 1) (some (E i)) (c + 1)]
      have h1 : i + 1 + r = i + (r + 1) := by omega
      have h2 : c + 1 + (r + 1) = c + (r + 1 + 1) := by omega
      rw [h1, h2]

/-- When the context never fires and every `gorm.Open` attempt fails, the
GORM loop exhausts its budget and terminates the process with the wrapped
error of the last attempt. -/
theorem gormLoop_all_fail (H : Type) (dc : Nat → Bool)
    (oA : Nat → Except String H) (M : Nat) (E : Nat → String)
    (hdc : ∀ i, dc i = false) (hoA : ∀ i, oA i = .error (E i)) :
    ∀ (r i : Nat) (lastE : Option String) (c : Nat),
      gormLoop H dc oA M i (r + 1) lastE c =
        (.fatal (finalErrPG M (some (E (i + r)))), c + (r + 1)) := by
  intro r
  induction r with
  | zero =>
      intro i lastE c
      rw [gormLoop_succ, hdc i, hoA i]
      simp [gormLoop]
  | succ r ih =>
      intro i lastE c
      have hstep : gormLoop H dc oA M i (r + 1 + 1) lastE c =
          gormLoop H dc oA M (i + 1) (r + 1) (some (E i)) (c + 1) := by
        rw [gormLoop_succ, hdc i, hoA i]
        simp
      rw [hstep, ih (i + 1) (some (E i)) (c + 1)]
      have h1 : i + 1 + r = i + (r + 1) := by omega
      have h2 : c + 1 + (r + 1) = c + (r + 1 + 1) := by omega
      rw [h1, h2]

/-- When the context never fires and every `mongo.Connect` attempt fails,
the MongoDB loop exhausts its budget and terminates the process with the
wrapped error of the last attempt. -/
theorem mongoLoop_all_fail (H : Type) (dc : Nat → Bool)
    (cA : Nat → Except String H) (pA : Nat → H → Option String) (M : Nat)
    (E : Nat → String) (hdc : ∀ i, dc i = false)
    (hcA : ∀ i, cA i = .error (E i)) :
    ∀ (r i : Nat) (lastE : Option String) (c : Nat),
      mongoLoop H dc cA pA M i (r + 1) lastE c =
        (.fatal (finalErrMongo M (some (E (i + r)))), c + (r + 1)) := by
  intro r
  induction r with
  | zero =>
      intro i lastE c
      rw [mongoLoop_succ, hdc i, hcA i]
      simp [mongoLoop]
  | succ r ih =>
      intro i lastE c
      have hstep : mongoLoop H dc cA pA M i (r + 1 + 1) lastE c =
          mongoLoop H dc cA pA M (i + 1) (r + 1) (some (E i)) (c + 1) := by
        rw [mongoLoop_succ, hdc i, hcA i]
        simp
      rw [hstep, ih (i + 1) (some (E i)) (c + 1)]
      have h1 : i + 1 + r = i + (r + 1) := by omega
      have h2 : c + 1 + (r + 1) = c + (r + 1 + 1) := by omega
      rw [h1, h2]

/-- A context oracle that never fires. -/
def oracleNoDone : Nat → Bool := fun _ => false

/-- A connect oracle whose every attempt fails with "connection refused". -/
def oracleConnFail : Nat → Except String Unit :=
  fun _ => Except.error "connection refused"

/-- A ping oracle that always succeeds. -/
def oraclePingOk : Nat → Unit → Option String := fun _ _ => none

/-- The error message of every `oracleConnFail` attempt. -/
def oracleConnFailMsg : Nat → String := fun _ => "connection refused"

/-- Claim C8 counterexample: when every attempt fails (here: one attempt,
context never cancelled, non-empty DSN), `ConnectToPostgresGORM` does not
return a nil handle and an error to the caller — it terminates the process
via `log.Fatalf` (outcome `fatal`). -/
theorem C8_counterexample :
    ConnectToPostgresGORM Unit oracleNoDone oracleConnFail "postgres://db" 1 =
      (Outcome.fatal (finalErrPG 1 (some "connection refused")), 1) := by
  decide

/-- Claim C8 (amended): each connect helper attempts the underlying client
call at most `maxRetries` times, and an empty DSN yields an error with no
connection attempt; when every attempt fails (context never cancelled),
the `database/sql` variant returns a nil handle and an error wrapping the
last failure to the caller, but the GORM and MongoDB variants instead
terminate the process via `log.Fatalf` with that wrapped error. -/
theorem C8_retry_helpers_amended :
    (∀ (H : Type) (dc : Nat → Bool) (oA : Nat → Except String H)
       (pA : Nat → H → Option String) (dsn : String) (M : Nat),
      (ConnectPostgresDB H dc oA pA dsn M).2 ≤ M)
    ∧ (∀ (H : Type) (dc : Nat → Bool) (oA : Nat → Except String H)
        (dsn : String) (M : Nat),
      (ConnectToPostgresGORM H dc oA dsn M).2 ≤ M)
    ∧ (∀ (H : Type) (dc : Nat → Bool) (cA : Nat → Except String H)
        (pA : Nat → H → Option String) (dsn : String) (M : Nat),
      (ConnectToMongoDB H dc cA pA dsn M).2 ≤ M)
    ∧ (∀ (H : Type) (dc : Nat → Bool) (oA : Nat → Except String H)
        (pA : Nat → H → Option String) (M : Nat),
      ConnectPostgresDB H dc oA pA "" M = (.err dsnErrPG, 0))
    ∧ (∀ (H : Type) (dc : Nat → Bool) (oA : Nat → Except String H)
        (M : Nat),
      ConnectToPostgresGORM H dc oA "" M = (.err dsnErrPG, 0))
    ∧ (∀ (H : Type) (dc : Nat → Bool) (cA : Nat → Except String H)
        (pA : Nat → H → Option String) (M : Nat),
      ConnectToMongoDB H dc cA pA "" M = (.err dsnErrMongo, 0))
    ∧ (∀ (H : Type) (dc : Nat → Bool) (oA : Nat → Except String H)
        (pA : Nat → H → Option String) (dsn : String) (R : Nat)
        (E : Nat → String),
      (∀ i, dc i = false) → (∀ i, oA i = Except.error (E i)) →
      ¬ dsn = "" →
      ConnectPostgresDB H dc oA pA dsn (R + 1) =
        (.err (finalErrPG (R + 1) (some (E R))), R + 1))
    ∧ (∀ (H : Type) (dc : Nat → Bool) (oA : Nat → Except String H)
        (dsn : String) (R : Nat) (E : Nat → String),
      (∀ i, dc i = false) → (∀ i, oA i = Except.error (E i)) →
      ¬ dsn = "" →
      ConnectToPostgresGORM H dc oA dsn (R + 1) =
        (.fatal (finalErrPG (R + 1) (some (E R))), R + 1))
    ∧ (∀ (H : Type) (dc : Nat → Bool) (cA : Nat → Except String H)
        (pA : Nat → H → Option String) (dsn : String) (R : Nat)
        (E : Nat → String),
      (∀ i, dc i = false) → (∀ i, cA i = Except.error (E i)) →
      ¬ dsn = "" →
      ConnectToMongoDB H dc cA pA dsn (R + 1) =
        (.fatal (finalErrMongo (R + 1) (some (E R))), R + 1)) := by
  refine ⟨?_, ?_, ?_, ?_, ?_, ?_, ?_, ?_, ?_⟩
  · intro H dc oA pA dsn M
    unfold ConnectPostgresDB
    split
    · simp
    · exact le_trans (pgSQLLoop_count_le H dc oA pA M M 0 none 0)
        (by omega)
  · intro H dc oA dsn M
    unfold ConnectToPostgresGORM
    split
    · simp
    · exact le_trans (gormLoop_count_le H dc oA M M 0 none 0) (by omega)
  · intro H dc cA pA dsn M
    unfold ConnectToMongoDB
    split
    · simp
    · exact le_trans (mongoLoop_count_le H dc cA pA M M 0 none 0)
        (by omega)
  · intro H dc oA pA M
    unfold ConnectPostgresDB
    rw [if_pos rfl]
  · intro H dc oA M
    unfold ConnectToPostgresGORM
    rw [if_pos rfl]
  · intro H dc cA pA M
    unfold ConnectToMongoDB
    rw [if_pos rfl]
  · intro H dc oA pA dsn R E hdc hoA hdsn
    unfold ConnectPostgresDB
    rw [if_neg hdsn, pgSQLLoop_all_fail H dc oA pA (R + 1) E hdc hoA R 0]
    simp
  · intro H dc oA dsn R E hdc hoA hdsn
    unfold ConnectToPostgresGORM
    rw [if_neg hdsn, gormLoop_all_fail H dc oA (R + 1) E hdc hoA R 0]
    simp
  · intro H dc cA pA dsn R E hdc hcA hdsn
    unfold ConnectToMongoDB
    rw [if_neg hdsn, mongoLoop_all_fail H dc cA pA (R + 1) E hdc hcA R 0]
    simp

/-- Witness for C8 (amended) at concrete oracles: two failing attempts,
context never cancelled. -/
theorem C8_retry_helpers_amended_witness :
    (ConnectPostgresDB Unit oracleNoDone oracleConnFail oraclePingOk
        "postgres://db" 2).2 ≤ 2
    ∧ ConnectPostgresDB Unit oracleNoDone oracleConnFail oraclePingOk "" 2 =
        (.err dsnErrPG, 0)
    ∧ ConnectPostgresDB Unit oracleNoDone oracleConnFail oraclePingOk
        "postgres://db" 2 =
        (.err (finalErrPG 2 (some "connection refused")), 2)
    ∧ ConnectToPostgresGORM Unit oracleNoDone oracleConnFail
        "postgres://db" 2 =
        (.fatal (finalErrPG 2 (some "connection refused")), 2)
    ∧ ConnectToMongoDB Unit oracleNoDone oracleConnFail oraclePingOk
        "mongodb://db" 2 =
        (.fatal (finalErrMongo 2 (some "connection refused")), 2) :=
  ⟨C8_retry_helpers_amended.1 Unit oracleNoDone oracleConnFail oraclePingOk
     "postgres://db" 2,
   C8_retry_helpers_amended.2.2.2.1 Unit oracleNoDone oracleConnFail
     oraclePingOk 2,
   C8_retry_helpers_amended.2.2.2.2.2.2.1 Unit oracleNoDone oracleConnFail
     oraclePingOk "postgres://db" 1 oracleConnFailMsg (fun _ => rfl)
     (fun _ => rfl) (by decide),
   C8_retry_helpers_amended.2.2.2.2.2.2.2.1 Unit oracleNoDone
     oracleConnFail "postgres://db" 1 oracleConnFailMsg (fun _ => rfl)
     (fun _ => rfl) (by decide),
   C8_retry_helpers_amended.2.2.2.2.2.2.2.2 Unit oracleNoDone
     oracleConnFail oraclePingOk "mongodb://db" 1 oracleConnFailMsg
     (fun _ => rfl) (fun _ => rfl) (by decide)⟩

end GopherDB

namespace Gophersmtp

/-- The deferred send recorded by the goroutine `ScheduleEmail` spawns: the
instant the goroutine wakes up (`time.Sleep(delay)` from `now`) and the
eventual outcome of its `SendEmail` call (`none` = success), which the
caller never observes. -/
structure EmailJob where
  fireAt : Int
  sendOutcome : Option String
deriving DecidableEq, Repr

/-- `EmailService.ScheduleEmail` (GopherRoutineSmtp.go): `delay :=
time.Until(sendAt)` at call time `now`; a non-positive delay is an error;
otherwise a goroutine is spawned that sleeps until `now + delay` and then
sends, and the function returns nil immediately.  The eventual send outcome
is passed as an oracle and recorded in the job, never in the return
value. -/
def ScheduleEmail (sendOutcome : Option String) (now sendAt : Int) :
    Except String EmailJob :=
  if sendAt - now ≤ 0 then .error "scheduled time is in the past"
  else .ok { fireAt := now + (sendAt - now), sendOutcome := sendOutcome }

/-- Claim C10: `ScheduleEmail` returns an error exactly when the requested
send time is not strictly in the future at call time; otherwise it returns
nil (ok) immediately, deferring the send to a goroutine that sleeps until
the scheduled instant (`fireAt = sendAt`); and whether it returns ok is
independent of the deferred send outcome, which the job records but the
return value never reflects. -/
theorem C10_schedule_email (r r2 : Option String) (now sendAt : Int) :
    ((∃ job, ScheduleEmail r now sendAt = .ok job) ↔ now < sendAt)
    ∧ (sendAt ≤ now →
      ScheduleEmail r now sendAt = .error "scheduled time is in the past")
    ∧ (now < sendAt →
      ScheduleEmail r now sendAt =
        .ok { fireAt := sendAt, sendOutcome := r })
    ∧ ((∃ job, ScheduleEmail r now sendAt = .ok job) ↔
       (∃ job, ScheduleEmail r2 now sendAt = .ok job)) := by
  have hfire : now + (sendAt - now) = sendAt := by ring
  unfold ScheduleEmail
  by_cases h : sendAt - now ≤ 0
  · rw [if_pos h, if_pos h]
    refine ⟨?_, ?_, ?_, ?_⟩
    · constructor
      · intro ⟨job, hj⟩
        exact absurd hj (by simp)
      · intro hlt
        omega
    · intro _
      rfl
    · intro hlt
      omega
    · constructor
      · intro ⟨job, hj⟩
        exact absurd hj (by simp)
      · intro ⟨job, hj⟩
        exact absurd hj (by simp)
  · rw [if_neg h, if_neg h, hfire]
    refine ⟨?_, ?_, ?_, ?_⟩
    · constructor
      · intro _
        omega
      · intro _
        exact ⟨_, rfl⟩
    · intro hle
      omega
    · intro _
      rfl
    · constructor
      · intro _
        exact ⟨_, rfl⟩
      · intro _
        exact ⟨_, rfl⟩

/-- Witness for C10 at concrete inputs: scheduling 5 seconds ahead succeeds
with the job firing at the requested instant regardless of the send
outcome; scheduling at the current instant fails. -/
theorem C10_schedule_email_witness :
    ScheduleEmail (some "smtp: connection refused") 100 105 =
      .ok { fireAt := 105, sendOutcome := some "smtp: connection refused" }
    ∧ ScheduleEmail none 100 100 =
      .error "scheduled time is in the past" :=
  ⟨(C10_schedule_email (some "smtp: connection refused") none 100 105).2.2.1
     (by decide),
   (C10_schedule_email none (some "x") 100 100).2.1 (by decide)⟩

end Gophersmtp
